import Mathlib

/-!
Verification of the content-ingestion and scheduling logic of
`src/reddit_downloader/downloader.py` (class `RedditImageDownloader`).

The Python code is shallowly embedded as pure Lean functions over an
explicit database/disk state (`Db`) and an environment (`Env`) supplying
the effectful oracles (network fetch, md5, ffmpeg conversion, clock).
Strings are Lean `String`s, with all transformations implemented over
`List Char` so that every definition evaluates inside the kernel.
-/

namespace RedditDL

/- ===== String helpers (models of the Python string operations used) ===== -/

/-- `s.lower()` -/
def lowerS (s : String) : String := String.mk (s.data.map Char.toLower)

/-- Python `needle in hay` (substring containment). -/
def hasSub (hay needle : String) : Bool :=
  hay.data.tails.any (fun t => needle.data.isPrefixOf t)

/-- `s.endswith(suf)` -/
def endsWithS (s suf : String) : Bool := suf.data.isSuffixOf s.data

/-- `s.startswith(pre)` -/
def startsWithS (s pre : String) : Bool := pre.data.isPrefixOf s.data

/-- Fuel-driven worker for `replaceS`; fuel = length of the list suffices
because each step consumes at least one character. -/
def replaceGo (pat rep : List Char) : Nat → List Char → List Char
  | 0, l => l
  | _ + 1, [] => []
  | fuel + 1, c :: rest =>
    if pat ≠ [] ∧ pat.isPrefixOf (c :: rest) then
      rep ++ replaceGo pat rep fuel ((c :: rest).drop pat.length)
    else
      c :: replaceGo pat rep fuel rest

/-- `s.replace(pat, rep)` (for non-empty `pat`, the only use in the source). -/
def replaceS (s pat rep : String) : String :=
  String.mk (replaceGo pat.data rep.data s.data.length s.data)

/-- `s.split(sep)` for a single-character separator. -/
def splitChar (sep : Char) : List Char → List (List Char)
  | [] => [[]]
  | c :: rest =>
    let r := splitChar sep rest
    if c = sep then [] :: r
    else
      match r with
      | [] => [[c]]
      | h :: t => (c :: h) :: t

/-- `s.split(sep)` returning `String`s. -/
def splitCharS (s : String) (sep : Char) : List String :=
  (splitChar sep s.data).map String.mk

/-- `s.strip()` -/
def trimS (s : String) : String :=
  String.mk (((s.data.dropWhile Char.isWhitespace).reverse.dropWhile Char.isWhitespace).reverse)

/-- `s[:n]` -/
def takeS (s : String) (n : Nat) : String := String.mk (s.data.take n)

/-- Index of the first occurrence of `needle`, if any. -/
def findSubIdx (needle : List Char) : List Char → Option Nat
  | [] => if needle.isPrefixOf ([] : List Char) then some 0 else none
  | c :: rest =>
    if needle.isPrefixOf (c :: rest) then some 0
    else (findSubIdx needle rest).map (· + 1)

/-- `os.path.splitext(s)`: split a filename at its last dot; a dot at
position 0 (hidden file) yields no extension. -/
def splitext (s : String) : String × String :=
  let l := s.data
  match (l.reverse.findIdx? (fun c => c = '.')) with
  | none => (s, "")
  | some k =>
    let idx := l.length - 1 - k
    if idx = 0 then (s, "")
    else (String.mk (l.take idx), String.mk (l.drop idx))

/-- Python truthiness chain `a or b` on strings (empty string is falsy). -/
def pyOr (a b : String) : String := if a = "" then b else a

/- ===== urlparse model =====
Model of `urllib.parse.urlparse` restricted to the URL shapes this program
handles: an optional `scheme://`, then the netloc up to the first `/`,
then the path up to the first `?` or `#`. A URL without `://` has an empty
netloc and is all path (Python behaviour for scheme-less strings). -/

structure ParsedUrl where
  netloc : String
  path : String
deriving Repr, DecidableEq

def urlparse (url : String) : ParsedUrl :=
  let l := url.data
  match findSubIdx "://".data l with
  | some i =>
    let after := l.drop (i + 3)
    let net := after.takeWhile (fun c => c ≠ '/' ∧ c ≠ '?' ∧ c ≠ '#')
    let rest := after.drop net.length
    ⟨String.mk net, String.mk (rest.takeWhile (fun c => c ≠ '?' ∧ c ≠ '#'))⟩
  | none => ⟨"", String.mk (l.takeWhile (fun c => c ≠ '?' ∧ c ≠ '#'))⟩

/- ===== Reddit post model (the opaque PRAW submission, restricted to the
fields the source reads) ===== -/

/-- `meta['s']`: the source dict of one media-metadata entry. -/
structure MSource where
  u : Option String
  gif : Option String
  mp4 : Option String
deriving Repr, DecidableEq

/-- One `media_metadata` entry (a dict with `status`, `e`, optional `s`). -/
structure MediaMeta where
  status : String
  e : String
  s : Option MSource
deriving Repr, DecidableEq

/-- One `gallery_data['items']` entry; `media_id` may be missing. -/
structure GalleryItem where
  media_id : Option String
deriving Repr, DecidableEq

/-- One upstream submission. `gallery_items = none` models a missing or
falsy `gallery_data` (likewise `media_metadata`); `media_fallback` models
`post.media.reddit_video['fallback_url']` when present and truthy, in
either the dict or the object shape the source accepts. -/
structure RPost where
  is_self : Bool
  permalink : String
  url : String
  title : String
  author : Option String
  score : Int
  created_utc : Nat
  gallery_items : Option (List GalleryItem)
  media_metadata : Option (List (String × MediaMeta))
  media_fallback : Option String
  comments_json : String
deriving Repr, DecidableEq

/-- Look up a media-metadata entry by id (first match, dict order). -/
def metaLookup (mm : List (String × MediaMeta)) (mid : String) : Option MediaMeta :=
  (mm.find? (fun pr => pr.1 = mid)).map (fun pr => pr.2)

/-- `RedditImageDownloader._extract_gallery_urls` -/
def extract_gallery_urls (p : RPost) : List String :=
  match p.gallery_items, p.media_metadata with
  | some items, some mm =>
    items.filterMap (fun item =>
      match item.media_id with
      | none => none
      | some mid =>
        if mid = "" then none
        else
          match metaLookup mm mid with
          | none => none
          | some meta =>
            if meta.status ≠ "valid" then none
            else
              let src := meta.s.getD ⟨none, none, none⟩
              let url := pyOr (src.u.getD "") (src.gif.getD "")
              if url = "" then none
              else some (replaceS url "&amp;" "&"))
  | _, _ => []

def image_extensions : List String := [".jpg", ".jpeg", ".png", ".gif", ".bmp", ".webp"]

def image_domains : List String := ["imgur.com", "i.imgur.com", "i.redd.it", "preview.redd.it"]

/-- `RedditImageDownloader._is_image_url` -/
def is_image_url (url : String) : Bool :=
  let pu := urlparse url
  let path := lowerS pu.path
  image_extensions.any (fun ext => endsWithS path ext) ||
  image_domains.any (fun d => hasSub pu.netloc d)

def video_extensions : List String := [".mp4", ".webm", ".mov", ".avi", ".mkv", ".flv", ".wmv"]

def video_domains : List String := ["v.redd.it", "reddit.com/video"]

/-- `RedditImageDownloader._is_video_url` -/
def is_video_url (url : String) : Bool :=
  let pu := urlparse url
  let path := lowerS pu.path
  if video_extensions.any (fun ext => endsWithS path ext) then true
  else
    let netloc := lowerS pu.netloc
    if video_domains.any (fun d => hasSub netloc d) then true
    else hasSub path "/video/"

/-- `RedditImageDownloader._extract_video_url` -/
def extract_video_url (p : RPost) : Option String :=
  let fb := p.media_fallback.getD ""
  if fb ≠ "" then some fb
  else
    if p.url ≠ "" ∧ is_video_url p.url then some p.url
    else
      let fromMeta :=
        match p.media_metadata with
        | some mm =>
          mm.findSome? (fun pr =>
            let meta := pr.2
            if meta.status = "valid" ∧ meta.e = "RedditVideo" then
              match meta.s with
              | some src =>
                let vu := pyOr (src.mp4.getD "") (pyOr (src.gif.getD "") (src.u.getD ""))
                if vu ≠ "" ∧ is_video_url vu then some (replaceS vu "&amp;" "&") else none
              | none => none
            else none)
        | none => none
      match fromMeta with
      | some v => some v
      | none =>
        if p.url ≠ "" ∧ (hasSub p.url "v.redd.it" ∨ hasSub p.url "reddit.com/video") then
          some p.url
        else none

/- ===== Relational state =====
Tables as in `migration.py`: `posts` (permalink and reddit_id unique),
`images` (file_hash unique), `post_images` (UNIQUE KEY (post_id, image_id)),
`permalinks` (primary key permalink), `scrape_lists`. The local filesystem
is an association list from path to byte content. -/

structure Image where
  id : Nat
  file_hash : Nat
  filename : String
  file_path : String
  file_size : Nat
  is_deleted : Bool
deriving Repr, DecidableEq

structure PostRow where
  id : Nat
  reddit_id : Option String
  title : String
  author : String
  subredditName : String
  permalink : String
  score : Int
  post_username : String
  comments : String
deriving Repr, DecidableEq

structure PostImage where
  post_id : Nat
  image_id : Nat
  url : String
deriving Repr, DecidableEq

structure ScrapeRow where
  stype : String
  name : String
  enabled : Bool
  last_scraped_at : Option Nat
  zero_result_count : Nat
deriving Repr, DecidableEq

structure Db where
  posts : List PostRow
  images : List Image
  post_images : List PostImage
  permalinks : List String
  scrape_lists : List ScrapeRow
  disk : List (String × List Nat)
  next_post_id : Nat
  next_image_id : Nat
deriving Repr, DecidableEq

def diskGet (db : Db) (p : String) : Option (List Nat) :=
  (db.disk.find? (fun e => e.1 = p)).map (fun e => e.2)

def diskHas (db : Db) (p : String) : Bool := (diskGet db p).isSome

def diskWrite (db : Db) (p : String) (bytes : List Nat) : Db :=
  { db with disk := (p, bytes) :: db.disk.filter (fun e => ¬ e.1 = p) }

def diskRemove (db : Db) (p : String) : Db :=
  { db with disk := db.disk.filter (fun e => ¬ e.1 = p) }

/-- `Path.rename`: fails (FileNotFoundError) when the source is absent. -/
def diskRename (db : Db) (old new : String) : Option Db :=
  match diskGet db old with
  | none => none
  | some bytes => some (diskWrite (diskRemove db old) new bytes)

/-- `RedditImageDownloader._get_image_record`: first `post_images` row with
this url joined to its `images` row. -/
def get_image_record (db : Db) (url : String) : Option Image :=
  (db.post_images.find? (fun pl => pl.url = url)).bind (fun pl =>
    db.images.find? (fun i => i.id = pl.image_id))

/-- `RedditImageDownloader._get_image_by_hash` -/
def get_image_by_hash (db : Db) (h : Nat) : Option Image :=
  db.images.find? (fun i => i.file_hash = h)

/-- `RedditImageDownloader._is_post_downloaded` -/
def is_post_downloaded (db : Db) (permalink : String) : Bool :=
  if permalink = "" then false
  else db.permalinks.any (fun q => q = permalink)

/-- `RedditImageDownloader._update_file_path_in_db`: set `file_path` on every
`images` row joined through `post_images` to this url. `is_deleted` is not
touched. -/
def update_file_path_in_db (db : Db) (url new_filepath : String) : Db :=
  let ids := (db.post_images.filter (fun pl => pl.url = url)).map (fun pl => pl.image_id)
  { db with images := db.images.map (fun i =>
      if ids.any (fun j => j = i.id) then { i with file_path := new_filepath } else i) }

/-- `RedditImageDownloader._mark_image_as_deleted` -/
def mark_image_as_deleted (db : Db) (url : String) : Db :=
  let ids := (db.post_images.filter (fun pl => pl.url = url)).map (fun pl => pl.image_id)
  { db with images := db.images.map (fun i =>
      if ids.any (fun j => j = i.id) then { i with is_deleted := true } else i) }

/- ===== Post metadata flowing through the download pipeline =====
The `post_data` dict; absent keys are the empty string / `none`. -/

structure PostData where
  title : String
  author : String
  permalink : String
  created_utc : Nat
  score : Int
  post_username : String
  comments : String
  all_urls : Option String
deriving Repr, DecidableEq

/-- The regex `r'/comments/([a-z0-9]+)/'` applied at the first
`/comments/` occurrence (permalinks contain at most one). -/
def extract_reddit_id (permalink : String) : Option String :=
  match findSubIdx "/comments/".data permalink.data with
  | none => none
  | some i =>
    let after := permalink.data.drop (i + 10)
    let idchars := after.takeWhile (fun c => ('a' ≤ c ∧ c ≤ 'z') ∨ ('0' ≤ c ∧ c ≤ '9'))
    if idchars ≠ [] ∧ (after.drop idchars.length).head? = some '/' then
      some (String.mk idchars)
    else none

/-- `RedditImageDownloader._save_image_metadata`: upsert the post (unique
keys permalink / reddit_id), record the permalink, upsert the image keyed
by file_hash (`ON DUPLICATE KEY UPDATE file_path=VALUES(file_path)` — only
the path is refreshed), and `INSERT IGNORE` the post↔image link
(UNIQUE KEY (post_id, image_id)). -/
def save_image_metadata (db : Db) (url filename subreddit : String)
    (post_data : Option PostData) (filepath : String) (file_hash : Nat)
    (file_size : Nat) : Db :=
  -- 1. Insert/Update Post
  let step1 : Db × Option Nat :=
    match post_data with
    | none => (db, none)
    | some pd =>
      let reddit_id := if pd.permalink ≠ "" then extract_reddit_id pd.permalink else none
      let dup := db.posts.find? (fun p =>
        p.permalink = pd.permalink ∨ (reddit_id.isSome ∧ p.reddit_id = reddit_id))
      let step : Db × Option Nat :=
        match dup with
        | some p =>
          ({ db with posts := db.posts.map (fun q =>
              if q.id = p.id then
                { q with title := pd.title, score := pd.score, comments := pd.comments }
              else q) }, some p.id)
        | none =>
          let newRow : PostRow := ⟨db.next_post_id, reddit_id, pd.title, pd.author,
            subreddit, pd.permalink, pd.score, pd.post_username, pd.comments⟩
          ({ db with
              posts := db.posts ++ [newRow],
              next_post_id := db.next_post_id + 1 }, some db.next_post_id)
      let db1 := step.1
      let post_id := step.2
      let db2 :=
        if pd.permalink ≠ "" ∧ ¬ db1.permalinks.any (fun q => q = pd.permalink) then
          { db1 with permalinks := db1.permalinks ++ [pd.permalink] }
        else db1
      (db2, post_id)
  let db2 := step1.1
  let post_id := step1.2
  -- 2. Insert/Update Image keyed by hash
  let step2 : Db × Nat :=
    match db2.images.find? (fun i => i.file_hash = file_hash) with
    | some i =>
      ({ db2 with images := db2.images.map (fun j =>
          if j.id = i.id then { j with file_path := filepath } else j) }, i.id)
    | none =>
      let newImg : Image := ⟨db2.next_image_id, file_hash, filename, filepath,
        file_size, false⟩
      ({ db2 with
          images := db2.images ++ [newImg],
          next_image_id := db2.next_image_id + 1 }, db2.next_image_id)
  let db3 := step2.1
  let image_id := step2.2
  -- 3. Link Post and Image (INSERT IGNORE, unique on (post_id, image_id))
  match post_id with
  | none => db3
  | some pid =>
    if db3.post_images.any (fun pl => pl.post_id = pid ∧ pl.image_id = image_id) then db3
    else { db3 with post_images := db3.post_images ++ [⟨pid, image_id, url⟩] }

/- ===== Source scheduler ===== -/

/-- Byte-order comparison on names (MySQL `ORDER BY name ASC`). -/
def nameLe : List Char → List Char → Bool
  | [], _ => true
  | _ :: _, [] => false
  | c :: cs, d :: ds =>
    if c.toNat < d.toNat then true
    else if c.toNat = d.toNat then nameLe cs ds
    else false

/-- `ORDER BY last_scraped_at ASC, name ASC` with NULL ordering first. -/
def scrapeKeyLe (a b : ScrapeRow) : Bool :=
  match a.last_scraped_at, b.last_scraped_at with
  | none, none => nameLe a.name.data b.name.data
  | none, some _ => true
  | some _, none => false
  | some x, some y =>
    if x = y then nameLe a.name.data b.name.data else x < y

def insertSorted (r : ScrapeRow) : List ScrapeRow → List ScrapeRow
  | [] => [r]
  | x :: xs => if scrapeKeyLe r x then r :: x :: xs else x :: insertSorted r xs

def sortRows : List ScrapeRow → List ScrapeRow
  | [] => []
  | r :: rest => insertSorted r (sortRows rest)

/-- `RedditImageDownloader.get_scrape_lists_from_db`: enabled rows of the
given type, ordered by last_scraped_at ASC (NULL first) then name ASC.
NOTE (faithful to the source): the backoff filtering described in the
function's docstring is commented out in the body (downloader.py lines
688-697), so every row's name is appended and `backoff_threshold` is
never consulted. -/
def get_scrape_lists_from_db (db : Db) (list_type : String)
    (backoff_threshold : Nat) : List String :=
  let rows := db.scrape_lists.filter (fun r => r.stype = list_type ∧ r.enabled)
  let _ := backoff_threshold
  (sortRows rows).map (fun r => r.name)

/-- `RedditImageDownloader.update_last_scraped_at` (CURRENT_TIMESTAMP = now). -/
def update_last_scraped_at (db : Db) (now : Nat) (list_type name : String) : Db :=
  { db with scrape_lists := db.scrape_lists.map (fun r =>
      if r.stype = list_type ∧ r.name = name then { r with last_scraped_at := some now }
      else r) }

/-- `RedditImageDownloader.get_zero_result_count` -/
def get_zero_result_count (db : Db) (list_type name : String) : Nat :=
  match db.scrape_lists.find? (fun r => r.stype = list_type ∧ r.name = name) with
  | some r => r.zero_result_count
  | none => 0

/-- `RedditImageDownloader.increment_zero_result_count` -/
def increment_zero_result_count (db : Db) (list_type name : String) : Db :=
  { db with scrape_lists := db.scrape_lists.map (fun r =>
      if r.stype = list_type ∧ r.name = name then
        { r with zero_result_count := r.zero_result_count + 1 }
      else r) }

/-- `RedditImageDownloader.reset_zero_result_count` -/
def reset_zero_result_count (db : Db) (list_type name : String) : Db :=
  { db with scrape_lists := db.scrape_lists.map (fun r =>
      if r.stype = list_type ∧ r.name = name then { r with zero_result_count := 0 }
      else r) }

/-- Oracle for one source poll: `download_from_subreddit` returns the number
of successful downloads, or raises `SubredditAccessError` (modelled as
`.error ()`). `now` models CURRENT_TIMESTAMP. -/
structure PollEnv where
  poll : String → Except Unit Nat
  now : Nat

/-- The subreddit loop of `RedditImageDownloader.scrape_from_config_list`
(downloader.py lines 781-806): per source, poll; on success update
last_scraped_at, then increment the zero-result counter on a zero yield or
reset it otherwise; on `SubredditAccessError` only record the name as
forbidden (neither the timestamp nor the counter is touched). Returns
(state, per-source download counts, forbidden names). -/
def scrape_subreddit_pass (pe : PollEnv) (db : Db) :
    List String → Db × List (String × Nat) × List String
  | [] => (db, [], [])
  | name :: rest =>
    let clean := trimS name
    match pe.poll clean with
    | .ok n =>
      let db1 := update_last_scraped_at db pe.now "subreddit" clean
      let db2 :=
        if n = 0 then increment_zero_result_count db1 "subreddit" clean
        else reset_zero_result_count db1 "subreddit" clean
      let r := scrape_subreddit_pass pe db2 rest
      (r.1, (clean, n) :: r.2.1, r.2.2)
    | .error _ =>
      let r := scrape_subreddit_pass pe db rest
      (r.1, r.2.1, clean :: r.2.2)

/-- `scrape_from_config_list` restricted to its subreddit half (the user
half is the same shape but swallows errors inside `download_from_user`). -/
def scrape_from_config_list (pe : PollEnv) (db : Db) (backoff_threshold : Nat) :
    Db × List (String × Nat) × List String :=
  scrape_subreddit_pass pe db (get_scrape_lists_from_db db "subreddit" backoff_threshold)

/- ===== Effect oracles for the download pipeline ===== -/

/-- One successful HTTP GET: the byte stream and the extension
`mimetypes.guess_extension` derives from the Content-Type header (when any). -/
structure Fetched where
  bytes : List Nat
  ct_ext : Option String
deriving Repr, DecidableEq

/-- Environment of `download_image`: `fetch` is `session.get` +
`raise_for_status` (`none` = network/HTTP error raised), `md5` the
fingerprint of a byte stream, `url_hash12` = `hashlib.md5(url)[:12]`,
`timestamp` the `%Y%m%d_%H%M%S` clock string, `convert` the ffmpeg
GIF→MP4 subprocess (`none` = non-zero exit / failure). -/
structure Env where
  fetch : String → Option Fetched
  md5 : List Nat → Nat
  url_hash12 : String → String
  timestamp : String
  convert : List Nat → Option (List Nat)
  download_folder : String

/-- Strip any of the given characters from both ends (Python `str.strip(cs)`). -/
def stripAny (s : String) (chars : List Char) : String :=
  let isIn := fun c => chars.any (fun d => d = c)
  String.mk (((s.data.dropWhile isIn).reverse.dropWhile isIn).reverse)

/-- `RedditImageDownloader._sanitize_folder_name` -/
def sanitize_folder_name (name : String) : String :=
  let invalid : List Char := ['<', '>', ':', '"', '/', '\\', '|', '?', '*']
  let cleaned := String.mk (name.data.map (fun c =>
    if invalid.any (fun d => d = c) then '_' else c))
  let stripped := stripAny cleaned ['.', ' ']
  if stripped = "" then "unknown" else takeS stripped 100

/-- Destination directory for a download (`download_folder[/subreddit]`). -/
def targetFolder (env : Env) (subreddit : String) : String :=
  if subreddit ≠ "" then env.download_folder ++ "/" ++ sanitize_folder_name subreddit
  else env.download_folder

/-- Last `/`-separated segment of a path (`Path.name` / `split('/')[-1]`). -/
def lastSeg (s : String) : String :=
  ((splitChar '/' s.data).map String.mk).getLast?.getD ""

/-- Everything before the last `/` (`Path.parent`). -/
def parentOf (s : String) : String :=
  let segs := (splitChar '/' s.data).map String.mk
  joinSlash (segs.dropLast)
where
  joinSlash : List String → String
    | [] => ""
    | [x] => x
    | x :: rest => x ++ "/" ++ joinSlash rest

def generic_patterns : List String := ["DASH_", "DASHPlaylist", "audio", "video"]

/-- The filename-determination block of `download_image` (downloader.py
lines 235-298), run only when no filename argument was given: URL basename
(percent-decoding omitted — the inputs considered contain no escapes),
prior-record filename reuse, Content-Type extension fix-up, `.mp4` default
for extension-less video URLs, generic-name detection with a unique id from
the permalink / a v.redd.it path segment / a URL hash, and a timestamp
suffix when the candidate path already exists on disk. -/
def derive_filename (env : Env) (db : Db) (url : String) (resp : Fetched)
    (prev : Option Image) (subreddit : String) (post_data : Option PostData) :
    String :=
  let pu := urlparse url
  let base := lastSeg pu.path
  match prev with
  | some pr =>
    if pr.filename ≠ "" then pr.filename
    else deriveFresh env db url pu base resp subreddit post_data
  | none => deriveFresh env db url pu base resp subreddit post_data
where
  deriveFresh (env : Env) (db : Db) (url : String) (pu : ParsedUrl)
      (base : String) (resp : Fetched) (subreddit : String)
      (post_data : Option PostData) : String :=
    let fn1 :=
      if (splitext base).2 = "" then
        let withCt := match resp.ct_ext with
          | some e => base ++ e
          | none => base
        if (splitext withCt).2 = "" ∧ is_video_url url then withCt ++ ".mp4"
        else withCt
      else base
    let ne := splitext fn1
    let name := ne.1
    let ext := ne.2
    let is_generic := generic_patterns.any (fun pat => hasSub name pat)
    let fn2 :=
      if is_generic ∨ name.data.length < 5 then
        let uid1 : Option String :=
          match post_data with
          | some pd => if pd.permalink ≠ "" then extract_reddit_id pd.permalink else none
          | none => none
        let uid2 : Option String :=
          match uid1 with
          | some u => some u
          | none =>
            let parts := splitChar '/' (stripAny pu.path ['/']).data
            if parts.length ≥ 2 ∧ hasSub pu.netloc "v.redd.it" then
              some (String.mk (parts.headD []))
            else none
        let uid := match uid2 with
          | some u => u
          | none => env.url_hash12 url
        name ++ "_" ++ uid ++ ext
      else fn1
    if diskHas db (targetFolder env subreddit ++ "/" ++ fn2) then
      let ne2 := splitext fn2
      ne2.1 ++ "_" ++ env.timestamp ++ ne2.2
    else fn2

/-- The tail of `download_image` after metadata bookkeeping (downloader.py
lines 394-417): thumbnail generation is a no-op on the modelled state (it
writes only under the thumbnails folder and is wrapped in its own
try/except), then the restore step: if the pre-fetch record was
soft-deleted and the final filename contains `_deleted`, strip the marker,
rename the file and update the stored path (the `is_deleted` flag is NOT
touched by `_update_file_path_in_db`). `none` = an exception escaped
(missing rename source). -/
def finishRestore (db : Db) (prev : Option Image) (url filename filepath : String) :
    Option (Bool × Db) :=
  match prev with
  | some pr =>
    if pr.is_deleted ∧ hasSub filename "_deleted" then
      let new_filename := replaceS filename "_deleted" ""
      let new_filepath := parentOf filepath ++ "/" ++ new_filename
      match diskRename db filepath new_filepath with
      | none => none
      | some db1 => some (true, update_file_path_in_db db1 url new_filepath)
    else some (true, db)
  | none => some (true, db)

/-- Resolution of a stored artifact path before the existence check:
absolute paths are used as-is, relative ones are joined to the download
folder (downloader.py lines 363-367). -/
def resolve_existing_path (env : Env) (img : Image) : String :=
  if startsWithS img.file_path "/" then img.file_path
  else env.download_folder ++ "/" ++ img.file_path

/-- The body of `RedditImageDownloader.download_image` inside its
try/except: `.error db` models an exception raised with the state mutated
so far; `.ok (b, db)` a normal return. -/
def download_image_body (env : Env) (db : Db) (url : String)
    (filename? : Option String) (subreddit : String)
    (post_data : Option PostData) : Except Db (Bool × Db) :=
  let prev := get_image_record db url
  match env.fetch url with
  | none => .error db
  | some resp =>
    let filename0 :=
      match filename? with
      | some f => f
      | none => derive_filename env db url resp prev subreddit post_data
    let filepath0 := targetFolder env subreddit ++ "/" ++ filename0
    let db1 := diskWrite db filepath0 resp.bytes
    let fhash := env.md5 resp.bytes
    if endsWithS (lowerS filepath0) ".gif" then
      -- GIF → MP4 conversion (inner try/except: failure is caught here)
      match env.convert resp.bytes with
      | some mp4bytes =>
        let mp4path := (splitext filepath0).1 ++ ".mp4"
        let db2 := diskRemove (diskWrite db1 mp4path mp4bytes) filepath0
        let fname := lastSeg mp4path
        let db3 := save_image_metadata db2 url fname subreddit post_data mp4path
          fhash mp4bytes.length
        match finishRestore db3 prev url fname mp4path with
        | none => .error db3
        | some r => .ok r
      | none =>
        -- conversion failed: original file kept, no metadata saved
        match finishRestore db1 prev url filename0 filepath0 with
        | none => .error db1
        | some r => .ok r
    else
      -- Deduplication check
      match get_image_by_hash db1 fhash with
      | some existing =>
        let expath := resolve_existing_path env existing
        if diskHas db1 expath then
          -- true duplicate: drop the fresh copy, reuse the stored artifact
          let db2 := diskRemove db1 filepath0
          let db3 := save_image_metadata db2 url existing.filename subreddit
            post_data expath fhash existing.file_size
          match finishRestore db3 prev url existing.filename expath with
          | none => .error db3
          | some r => .ok r
        else
          -- repair: stored file is gone, keep the fresh copy
          if ¬ diskHas db1 filepath0 then .ok (false, db1)
          else
            let db3 := save_image_metadata db1 url filename0 subreddit post_data
              filepath0 fhash resp.bytes.length
            match finishRestore db3 prev url filename0 filepath0 with
            | none => .error db3
            | some r => .ok r
      | none =>
        let db3 := save_image_metadata db1 url filename0 subreddit post_data
          filepath0 fhash resp.bytes.length
        match finishRestore db3 prev url filename0 filepath0 with
        | none => .error db3
        | some r => .ok r

/-- `RedditImageDownloader.download_image`: the catch-all `except` turns any
raised exception into a `False` return, leaving whatever state was already
mutated. -/
def download_image (env : Env) (db : Db) (url : String) (filename? : Option String)
    (subreddit : String) (post_data : Option PostData) : Bool × Db :=
  match download_image_body env db url filename? subreddit post_data with
  | .ok r => r
  | .error db1 => (false, db1)

/-- `post_data = url_data[i-1] if url_data and i <= len(url_data) else None` -/
def pdFor (url_data : Option (List PostData)) (i : Nat) : Option PostData :=
  (url_data.getD []).get? i

/-- Download every URL of one gallery (`download_from_urls` inner loop). -/
def downloadList (env : Env) (subreddit : String) (pd : PostData) :
    Db → List String → Nat × Db × List (String × Bool)
  | db, [] => (0, db, [])
  | db, g :: rest =>
    let r1 := download_image env db g none subreddit (some pd)
    let r2 := downloadList env subreddit pd r1.2 rest
    ((if r1.1 then 1 else 0) + r2.1, r2.2.1, (g, r1.1) :: r2.2.2)

/-- One iteration item of `download_from_urls`: either the gallery expansion
(when `post_data['all_urls']` is present and non-empty) or the single URL. -/
def downloadOne (env : Env) (subreddit : String) (db : Db) (url : String)
    (pd : Option PostData) : Nat × Db × List (String × Bool) :=
  match pd with
  | some p =>
    match p.all_urls with
    | some s =>
      if s ≠ "" then
        let gallery_urls := ((splitCharS s ',').map trimS).filter (fun u => u ≠ "")
        downloadList env subreddit p db gallery_urls
      else
        let r := download_image env db url none subreddit (some p)
        ((if r.1 then 1 else 0), r.2, [(url, r.1)])
    | none =>
      let r := download_image env db url none subreddit (some p)
      ((if r.1 then 1 else 0), r.2, [(url, r.1)])
  | none =>
    let r := download_image env db url none subreddit none
    ((if r.1 then 1 else 0), r.2, [(url, r.1)])

def download_from_urls_go (env : Env) (subreddit : String)
    (url_data : Option (List PostData)) :
    Db → Nat → List String → Nat × Db × List (String × Bool)
  | db, _, [] => (0, db, [])
  | db, i, url :: rest =>
    let r1 := downloadOne env subreddit db url (pdFor url_data i)
    let r2 := download_from_urls_go env subreddit url_data r1.2.1 (i + 1) rest
    (r1.1 + r2.1, r2.2.1, r1.2.2 ++ r2.2.2)

/-- `RedditImageDownloader.download_from_urls`: returns the count of
successful downloads, the final state, and the trace of per-URL attempts
(each attempted URL with its boolean outcome). -/
def download_from_urls (env : Env) (db : Db) (urls : List String)
    (subreddit : String) (url_data : Option (List PostData)) :
    Nat × Db × List (String × Bool) :=
  download_from_urls_go env subreddit url_data db 0 urls

/- ===== Subreddit listing scan ===== -/

/-- `str(post.author)` (`None` prints as "None"). -/
def strAuthor : Option String → String
  | none => "None"
  | some a => a

/-- `str(post.author) if post.author else ''` -/
def usernameOf : Option String → String
  | none => ""
  | some a => if a = "" then "" else a

/-- One element of the `image_posts` list built by
`get_image_urls_from_subreddit`. `all_urls = none` models the key being
absent (non-gallery entries). -/
structure Entry where
  title : String
  url : String
  all_urls : Option String
  author : String
  score : Int
  permalink : String
  created_utc : Nat
  post_username : String
  comments : String
deriving Repr, DecidableEq

def joinComma : List String → String
  | [] => ""
  | [x] => x
  | x :: rest => x ++ "," ++ joinComma rest

/-- Events of the per-post scan, used to state *when* a post is skipped:
`resolved` is emitted exactly when the permalink check has passed and URL
classification (gallery / video / image) begins. -/
inductive PEvent where
  | skippedSelf (permalink : String)
  | skippedPermalink (permalink : String)
  | resolved (permalink : String)
  | stoppedOnDup (url : String)
deriving Repr, DecidableEq

def galleryEntry (p : RPost) (urls : List String) : Entry :=
  { title := p.title, url := urls.headD "", all_urls := some (joinComma urls),
    author := strAuthor p.author, score := p.score, permalink := p.permalink,
    created_utc := p.created_utc, post_username := usernameOf p.author,
    comments := p.comments_json }

def videoEntry (p : RPost) (vu : String) : Entry :=
  { title := p.title, url := vu, all_urls := none,
    author := strAuthor p.author, score := p.score, permalink := p.permalink,
    created_utc := p.created_utc, post_username := usernameOf p.author,
    comments := p.comments_json }

def imageEntry (p : RPost) : Entry :=
  { title := p.title, url := p.url, all_urls := none,
    author := strAuthor p.author, score := p.score, permalink := p.permalink,
    created_utc := p.created_utc, post_username := usernameOf p.author,
    comments := p.comments_json }

/-- The per-post body of the listing loop in
`get_image_urls_from_subreddit` (downloader.py lines 966-1062): returns the
entries contributed by this post, whether the loop `break`s, and the scan
events. The database is only read, never written, during the scan. -/
def processPost (db : Db) (p : RPost) : List Entry × Bool × List PEvent :=
  if p.is_self then ([], false, [.skippedSelf p.permalink])
  else if is_post_downloaded db p.permalink then
    ([], false, [.skippedPermalink p.permalink])
  else
    let all_urls := extract_gallery_urls p
    if all_urls ≠ [] then
      ([galleryEntry p all_urls], false, [.resolved p.permalink])
    else
      match extract_video_url p with
      | some vu =>
        if (get_image_record db vu).isSome then
          ([], true, [.resolved p.permalink, .stoppedOnDup vu])
        else ([videoEntry p vu], false, [.resolved p.permalink])
      | none =>
        if is_image_url p.url then
          if (get_image_record db p.url).isSome then
            ([], true, [.resolved p.permalink, .stoppedOnDup p.url])
          else ([imageEntry p], false, [.resolved p.permalink])
        else ([], false, [.resolved p.permalink])

/-- The listing loop with `break` semantics. -/
def process_posts (db : Db) : List RPost → List Entry × List PEvent
  | [] => ([], [])
  | p :: rest =>
    let r := processPost db p
    if r.2.1 then (r.1, r.2.2)
    else
      let r2 := process_posts db rest
      (r.1 ++ r2.1, r.2.2 ++ r2.2)

/-- `RedditImageDownloader.get_image_urls_from_subreddit`: a `Forbidden`
listing is re-raised as `SubredditAccessError` (`.error ()`); otherwise the
posts are scanned in order. -/
def get_image_urls_from_subreddit (listing : Except Unit (List RPost))
    (db : Db) : Except Unit (List Entry × List PEvent) :=
  match listing with
  | .error _ => .error ()
  | .ok posts => .ok (process_posts db posts)

/- ===== Concrete fixtures used by witnesses and counterexamples ===== -/

def db0 : Db := ⟨[], [], [], [], [], [], 1, 1⟩

/-- A deterministic stand-in for md5 over byte streams. -/
def hashFn (bytes : List Nat) : Nat := bytes.foldl (fun a c => a * 256 + c) 1

def dbC1 : Db := { db0 with scrape_lists := [⟨"subreddit", "alpha", true, none, 3⟩] }

def peOk1 : PollEnv := ⟨fun _ => .ok 1, 99⟩

def dbC5 : Db := { db0 with scrape_lists := [⟨"subreddit", "alpha", true, some 5, 2⟩] }

def peForbidden : PollEnv := ⟨fun _ => .error (), 99⟩

def dbC6 : Db := { db0 with permalinks := ["/r/x/comments/abc/"] }

def pC6 : RPost :=
  ⟨false, "/r/x/comments/abc/", "https://i.redd.it/z.jpg", "t", some "au", 1, 0,
    none, none, none, "[]"⟩

def pC7 : RPost :=
  ⟨false, "/r/x/comments/ga1/", "https://i.redd.it/cover.jpg", "g", some "au", 1, 0,
    some [⟨some "m1"⟩],
    some [("m1", ⟨"valid", "Image", some ⟨some "https://p.example/1.jpg&amp;s=1", none, none⟩⟩)],
    none, "[]"⟩

def pC8bad : RPost :=
  ⟨false, "/r/x/comments/gb1/", "https://r.example/g", "g", some "au", 1, 0,
    some [⟨some "m1"⟩],
    some [("m1", ⟨"valid", "Image", some ⟨none, none, none⟩⟩)],
    none, "[]"⟩

def pC8scenario : RPost :=
  ⟨false, "/r/x/comments/gc1/", "https://r.example/g3", "g", some "au", 1, 0,
    some [⟨some "m1"⟩, ⟨some "m2"⟩, ⟨some "m3"⟩, ⟨some "m4"⟩],
    some [("m1", ⟨"valid", "Image", some ⟨some "https://a/1.jpg", none, none⟩⟩),
          ("m2", ⟨"valid", "Image", some ⟨some "https://a/2.jpg", none, none⟩⟩),
          ("m3", ⟨"valid", "Image", some ⟨some "https://a/3.jpg", none, none⟩⟩),
          ("m4", ⟨"invalid", "Image", some ⟨some "https://a/4.jpg", none, none⟩⟩)],
    none, "[]"⟩

def envFail : Env := ⟨fun _ => none, hashFn, fun _ => "h", "ts", fun _ => none, "dl"⟩

def envC4 : Env :=
  ⟨fun u => if u = "https://u.example/b.gif" then some ⟨[3], none⟩ else none,
    hashFn, fun _ => "h", "ts", fun _ => none, "dl"⟩

/-- Key predicate: schedule rows of the subreddit source named `nm`. -/
def subredditKeyRow (nm : String) (r : ScrapeRow) : Bool :=
  decide (r.stype = "subreddit" ∧ r.name = nm)

/-- Modelled from the claim's words (C8): the number of gallery items whose
metadata, looked up by item id, has status "valid" — the items the claim
says are exactly the ones included. -/
def claim_valid_items (p : RPost) : Nat :=
  match p.gallery_items, p.media_metadata with
  | some items, some mm =>
    (items.filter (fun item =>
      match item.media_id with
      | some mid =>
        match metaLookup mm mid with
        | some meta => meta.status = "valid"
        | none => false
      | none => false)).length
  | _, _ => 0

/-- The direct media URL of one metadata entry: `s.u` or `s.gif`, when
present and non-empty. -/
def direct_media_url (meta : MediaMeta) : Option String :=
  let src := meta.s.getD ⟨none, none, none⟩
  let u := pyOr (src.u.getD "") (src.gif.getD "")
  if u = "" then none else some u

/-- The amended C8 reading: gallery extraction includes exactly the items
with a present, non-empty media id whose metadata (looked up by id) has
status "valid" AND exposes a direct media URL, each URL unescaped
(`&amp;` → `&`). -/
def amended_gallery_urls (p : RPost) : List String :=
  match p.gallery_items, p.media_metadata with
  | some items, some mm =>
    items.filterMap (fun item =>
      match item.media_id with
      | some mid =>
        if mid ≠ "" then
          (metaLookup mm mid).bind (fun meta =>
            if meta.status = "valid" then
              (direct_media_url meta).map (fun u => replaceS u "&amp;" "&")
            else none)
        else none
      | none => none)
  | _, _ => []

/-- Number of per-URL download attempts `download_from_urls` plans for a
batch: the gallery expansion size for gallery items, 1 otherwise. -/
def plannedAttemptsGo (ud : Option (List PostData)) : Nat → List String → Nat
  | _, [] => 0
  | i, _ :: rest =>
    (match pdFor ud i with
      | some p =>
        match p.all_urls with
        | some sAll =>
          if sAll ≠ "" then
            (((splitCharS sAll ',').map trimS).filter (fun u => u ≠ "")).length
          else 1
        | none => 1
      | none => 1) + plannedAttemptsGo ud (i + 1) rest

def plannedAttempts (ud : Option (List PostData)) (urls : List String) : Nat :=
  plannedAttemptsGo ud 0 urls

def envC2 : Env :=
  ⟨fun u => if u = "https://u.example/x.jpg" then some ⟨[7], none⟩ else none,
    hashFn, fun _ => "h", "ts", fun _ => none, "dl"⟩

def imgC2 : Image := ⟨1, 263, "x_old.jpg", "old/x_old.jpg", 9, false⟩

def dbC2a : Db :=
  { db0 with images := [imgC2], disk := [("dl/old/x_old.jpg", [7])], next_image_id := 2 }

def dbC2b : Db := { db0 with images := [imgC2], next_image_id := 2 }

def envC2g : Env :=
  ⟨fun u => if u = "https://u.example/a.gif" then some ⟨[9], none⟩ else none,
    hashFn, fun _ => "h", "ts", fun _ => some [5], "dl"⟩

def imgC2g : Image := ⟨1, 265, "old.gif", "old.gif", 1, false⟩

def dbC2g : Db :=
  { db0 with images := [imgC2g], disk := [("dl/old.gif", [9])], next_image_id := 2 }

def envC3 : Env :=
  ⟨fun u => if u = "https://u.example/p.jpg" then some ⟨[2], none⟩ else none,
    hashFn, fun _ => "h", "ts", fun _ => none, "dl"⟩

def imgC3 : Image := ⟨1, 999, "pic_deleted.jpg", "dl/pic_deleted.jpg", 3, true⟩

def dbC3 : Db :=
  { db0 with
    images := [imgC3]
    post_images := [⟨1, 1, "https://u.example/p.jpg"⟩]
    disk := [("dl/pic_deleted.jpg", [1])]
    next_image_id := 2 }

def imgC10 : Image := ⟨1, 5, "d.jpg", "dl/d.jpg", 1, false⟩

def dbC10 : Db :=
  { db0 with
    images := [imgC10]
    post_images := [⟨1, 1, "https://i.redd.it/dup.jpg"⟩]
    next_image_id := 2 }

def pC10dup : RPost :=
  ⟨false, "/r/x/comments/d1/", "https://i.redd.it/dup.jpg", "t", some "au", 1, 0,
    none, none, none, "[]"⟩

def pC10next : RPost :=
  ⟨false, "/r/x/comments/d2/", "https://i.redd.it/fresh.jpg", "t", some "au", 1, 0,
    none, none, none, "[]"⟩

/- ===== Theorems ===== -/

/-- C1: code bug. The spec (and the docstring of
`get_scrape_lists_from_db` itself) says a source whose consecutive
zero-result counter has reached the backoff threshold is excluded from the
selection, but the filtering block is commented out in the source, so the
selection returns every enabled source regardless of its counter: here a
subreddit with counter 3 and threshold 3 is still selected. The reset half
of the round-trip does hold: a poll ingesting 1 item resets the counter to
0 and updates last-polled. -/
theorem c1_backoff_selection :
    get_scrape_lists_from_db dbC1 "subreddit" 3 = ["alpha"] ∧
    (scrape_subreddit_pass peOk1 dbC1 ["alpha"]).1.scrape_lists =
      [⟨"subreddit", "alpha", true, some 99, 0⟩] := by
  decide

/-- C6: confirmed. A non-self post whose permalink is already recorded in
the permalinks table is skipped before any URL resolution: the scan of that
post yields no entry, does not stop the listing loop, emits only the
permalink-skip event (never the resolution event), and the rest of the
listing is processed unchanged. -/
theorem c6_permalink_skip (db : Db) (p : RPost) (h1 : p.is_self = false)
    (h2 : is_post_downloaded db p.permalink = true) :
    processPost db p = ([], false, [PEvent.skippedPermalink p.permalink]) ∧
    ∀ rest : List RPost, process_posts db (p :: rest) =
      ((process_posts db rest).1,
        PEvent.skippedPermalink p.permalink :: (process_posts db rest).2) := by
  constructor
  · simp [processPost, h1, h2]
  · intro rest
    simp [process_posts, processPost, h1, h2]

/-- C6 witness: the skip at a concrete already-recorded permalink. -/
theorem c6_permalink_skip_witness :
    processPost dbC6 pC6 = ([], false, [PEvent.skippedPermalink "/r/x/comments/abc/"]) :=
  (c6_permalink_skip dbC6 pC6 rfl (by decide)).1

/-- C7: confirmed. A post with at least one valid gallery item produces
exactly one gallery entry (carrying all gallery URLs), never a
single-image or video entry, even when its primary URL matches the image
or video heuristics. -/
theorem c7_gallery_exclusive (db : Db) (p : RPost) (u : String) (us : List String)
    (h1 : p.is_self = false) (h2 : is_post_downloaded db p.permalink = false)
    (h3 : extract_gallery_urls p = u :: us) :
    processPost db p = ([galleryEntry p (u :: us)], false, [PEvent.resolved p.permalink]) := by
  simp [processPost, h1, h2, h3]

/-- C7 witness: a gallery post whose primary URL is itself an i.redd.it
image URL still yields only the gallery entry. -/
theorem c7_gallery_exclusive_witness :
    is_image_url pC7.url = true ∧
    processPost db0 pC7 =
      ([galleryEntry pC7 ["https://p.example/1.jpg&s=1"]], false,
        [PEvent.resolved "/r/x/comments/ga1/"]) :=
  ⟨by decide, c7_gallery_exclusive db0 pC7 "https://p.example/1.jpg&s=1" [] rfl
    (by decide) (by decide)⟩

/-- C4 counterexample: a .gif download whose ffmpeg conversion fails
(`envC4.convert = none`) returns success and keeps the original file on
disk, but saves NO metadata: the claim's "its metadata (Artifact row and
link) is still saved to the index" is false — the images and post_images
tables stay empty. -/
theorem c4_counterexample :
    (download_image envC4 db0 "https://u.example/b.gif" (some "b.gif") "" none).1 = true ∧
    diskGet (download_image envC4 db0 "https://u.example/b.gif" (some "b.gif") "" none).2
      "dl/b.gif" = some [3] ∧
    (download_image envC4 db0 "https://u.example/b.gif" (some "b.gif") "" none).2.images = [] ∧
    (download_image envC4 db0 "https://u.example/b.gif" (some "b.gif") "" none).2.post_images
      = [] := by
  decide

/-- C4 amended: when the GIF→MP4 conversion of a downloaded .gif fails, the
download is still non-fatal (returns success) and the original file is
preserved on disk, but its metadata is NOT saved to the index: the
resulting state is exactly the input state plus the written file — no
Artifact row or link is created in that run. -/
theorem c4_conversion_failure_nonfatal (env : Env) (db : Db)
    (url fname sub : String) (pd : Option PostData) (resp : Fetched)
    (henv : env.fetch url = some resp)
    (hg : endsWithS (lowerS (targetFolder env sub ++ "/" ++ fname)) ".gif" = true)
    (hconv : env.convert resp.bytes = none)
    (hprev : get_image_record db url = none) :
    download_image env db url (some fname) sub pd =
      (true, diskWrite db (targetFolder env sub ++ "/" ++ fname) resp.bytes) := by
  simp [download_image, download_image_body, henv, hg, hconv, hprev, finishRestore]

/-- C4 witness: the amended claim at the concrete failing-conversion GIF. -/
theorem c4_conversion_failure_witness :
    download_image envC4 db0 "https://u.example/b.gif" (some "b.gif") "" none =
      (true, diskWrite db0 "dl/b.gif" [3]) :=
  c4_conversion_failure_nonfatal envC4 db0 "https://u.example/b.gif" "b.gif" "" none
    ⟨[3], none⟩ rfl (by decide) rfl rfl

/-- Mapping the schedule list by a row function that preserves the type and
name fields and fixes every row of the given subreddit source leaves that
source's rows untouched. -/
theorem filter_map_key_preserve (nm : String) (f : ScrapeRow → ScrapeRow)
    (hf : ∀ r, (f r).stype = r.stype ∧ (f r).name = r.name)
    (hid : ∀ r, r.stype = "subreddit" → r.name = nm → f r = r) :
    ∀ l : List ScrapeRow,
      (l.map f).filter (subredditKeyRow nm) = l.filter (subredditKeyRow nm) := by
  intro l
  induction l with
  | nil => simp
  | cons a t ih =>
    simp only [List.map_cons, List.filter_cons]
    by_cases hk : subredditKeyRow nm a = true
    · have hdec := of_decide_eq_true hk
      have ha := hid a hdec.1 hdec.2
      rw [ha, hk, ih]
    · have hkf : subredditKeyRow nm (f a) = subredditKeyRow nm a := by
        unfold subredditKeyRow
        rw [(hf a).1, (hf a).2]
      simp only [Bool.not_eq_true] at hk
      rw [hkf, hk]
      simp [ih]

theorem filter_update_last (db : Db) (now : Nat) (c nm : String) (h : c ≠ nm) :
    (update_last_scraped_at db now "subreddit" c).scrape_lists.filter (subredditKeyRow nm)
      = db.scrape_lists.filter (subredditKeyRow nm) := by
  apply filter_map_key_preserve
  · intro r
    by_cases hc : r.stype = "subreddit" ∧ r.name = c <;> simp [hc]
  · intro r _ hr2
    have : ¬ (r.stype = "subreddit" ∧ r.name = c) := by
      intro hc
      exact h (by rw [← hc.2, hr2])
    simp [this]

theorem filter_increment (db : Db) (c nm : String) (h : c ≠ nm) :
    (increment_zero_result_count db "subreddit" c).scrape_lists.filter (subredditKeyRow nm)
      = db.scrape_lists.filter (subredditKeyRow nm) := by
  apply filter_map_key_preserve
  · intro r
    by_cases hc : r.stype = "subreddit" ∧ r.name = c <;> simp [hc]
  · intro r _ hr2
    have : ¬ (r.stype = "subreddit" ∧ r.name = c) := by
      intro hc
      exact h (by rw [← hc.2, hr2])
    simp [this]

theorem filter_reset (db : Db) (c nm : String) (h : c ≠ nm) :
    (reset_zero_result_count db "subreddit" c).scrape_lists.filter (subredditKeyRow nm)
      = db.scrape_lists.filter (subredditKeyRow nm) := by
  apply filter_map_key_preserve
  · intro r
    by_cases hc : r.stype = "subreddit" ∧ r.name = c <;> simp [hc]
  · intro r _ hr2
    have : ¬ (r.stype = "subreddit" ∧ r.name = c) := by
      intro hc
      exact h (by rw [← hc.2, hr2])
    simp [this]

theorem pass_preserves_errored (pe : PollEnv) (nm : String) (h : pe.poll nm = .error ()) :
    ∀ (names : List String) (db : Db),
      ((scrape_subreddit_pass pe db names).1.scrape_lists.filter (subredditKeyRow nm)
        = db.scrape_lists.filter (subredditKeyRow nm)) ∧
      (∀ n0 ∈ names, trimS n0 = nm →
        nm ∈ (scrape_subreddit_pass pe db names).2.2) := by
  intro names
  induction names with
  | nil => intro db; simp [scrape_subreddit_pass]
  | cons n0 rest ih =>
    intro db
    by_cases he : trimS n0 = nm
    · have hp : pe.poll (trimS n0) = .error () := by rw [he]; exact h
      constructor
      · simp only [scrape_subreddit_pass, hp]
        exact (ih db).1
      · intro n1 _ _
        simp only [scrape_subreddit_pass, hp]
        rw [he]
        exact List.mem_cons_self nm _
    · cases hp : pe.poll (trimS n0) with
      | error e =>
        constructor
        · simp only [scrape_subreddit_pass, hp]
          exact (ih db).1
        · intro n1 hn1 ht1
          simp only [scrape_subreddit_pass, hp]
          rcases List.mem_cons.mp hn1 with h1 | h1
          · exact absurd (h1 ▸ ht1) he
          · exact List.mem_cons_of_mem _ ((ih db).2 n1 h1 ht1)
      | ok k =>
        constructor
        · simp only [scrape_subreddit_pass, hp]
          by_cases hz : k = 0
          · rw [if_pos hz]
            rw [(ih _).1, filter_increment _ _ _ he, filter_update_last _ _ _ _ he]
          · rw [if_neg hz]
            rw [(ih _).1, filter_reset _ _ _ he, filter_update_last _ _ _ _ he]
        · intro n1 hn1 ht1
          simp only [scrape_subreddit_pass, hp]
          rcases List.mem_cons.mp hn1 with h1 | h1
          · exact absurd (h1 ▸ ht1) he
          · by_cases hz : k = 0
            · rw [if_pos hz]
              exact (ih _).2 n1 h1 ht1
            · rw [if_neg hz]
              exact (ih _).2 n1 h1 ht1

/-- C5 counterexample: a forbidden (access-denied) subreddit poll leaves
the source's last-polled timestamp UNCHANGED (still 5, although the clock
is 99): the claim's "its last-polled timestamp is still updated" is false.
The counter is unchanged and the source is reported as forbidden, as the
claim also says. -/
theorem c5_counterexample :
    (scrape_subreddit_pass peForbidden dbC5 ["alpha"]).1.scrape_lists =
      [⟨"subreddit", "alpha", true, some 5, 2⟩] ∧
    (scrape_subreddit_pass peForbidden dbC5 ["alpha"]).2.2 = ["alpha"] ∧
    peForbidden.now = 99 := by
  decide

/-- C5 amended: a source poll failing with an access-denied error leaves
every schedule row of that source completely unchanged — the zero-result
counter is untouched (as claimed) but the last-polled timestamp is NOT
updated either — and the source is reported separately to the caller in
the forbidden list. -/
theorem c5_forbidden_handling (pe : PollEnv) (db : Db) (names : List String)
    (nm : String) (h1 : pe.poll nm = .error ()) (h2 : nm ∈ names)
    (h3 : trimS nm = nm) :
    ((scrape_subreddit_pass pe db names).1.scrape_lists.filter (subredditKeyRow nm)
      = db.scrape_lists.filter (subredditKeyRow nm)) ∧
    nm ∈ (scrape_subreddit_pass pe db names).2.2 :=
  ⟨(pass_preserves_errored pe nm h1 names db).1,
    (pass_preserves_errored pe nm h1 names db).2 nm h2 h3⟩

/-- C5 witness: the amended claim at the concrete forbidden source. -/
theorem c5_forbidden_handling_witness :
    ((scrape_subreddit_pass peForbidden dbC5 ["alpha"]).1.scrape_lists.filter
        (subredditKeyRow "alpha")
      = dbC5.scrape_lists.filter (subredditKeyRow "alpha")) ∧
    "alpha" ∈ (scrape_subreddit_pass peForbidden dbC5 ["alpha"]).2.2 :=
  c5_forbidden_handling peForbidden dbC5 ["alpha"] "alpha" rfl
    (List.mem_singleton.mpr rfl) (by decide)

/-- C8 counterexample: a gallery item whose metadata status is "valid" but
whose source dict carries no direct media URL (`s.u` and `s.gif` absent) is
NOT included: the claim's "includes exactly the items whose per-item
metadata status is valid" predicts 1 URL here, the code produces 0. -/
theorem c8_counterexample :
    extract_gallery_urls pC8bad = [] ∧ claim_valid_items pC8bad = 1 := by
  decide

/-- C8 amended: gallery extraction includes exactly the items with a
present non-empty media id whose metadata (looked up by id) has status
"valid" AND exposes a direct media URL (`s.u` or `s.gif`, non-empty), each
URL post-processed by `&amp;` → `&`; and the 3-valid-plus-1-invalid gallery
scenario yields exactly the 3 valid URLs. -/
theorem c8_gallery_extraction :
    (∀ p : RPost, extract_gallery_urls p = amended_gallery_urls p) ∧
    extract_gallery_urls pC8scenario =
      ["https://a/1.jpg", "https://a/2.jpg", "https://a/3.jpg"] := by
  constructor
  · intro p
    unfold extract_gallery_urls amended_gallery_urls
    cases hg : p.gallery_items with
    | none => rfl
    | some items =>
      cases hm : p.media_metadata with
      | none => rfl
      | some mm =>
        apply List.filterMap_congr
        intro item _
        cases item.media_id with
        | none => rfl
        | some mid =>
          by_cases hmid : mid = ""
          · simp [hmid]
          · simp only [if_neg hmid, hmid, ite_not, if_neg]
            cases metaLookup mm mid with
            | none => simp [hmid]
            | some meta =>
              by_cases hst : meta.status = "valid"
              · simp only [hmid, hst, direct_media_url, ite_false, ite_true,
                  Option.bind_some, if_neg, ite_not]
                by_cases hu : pyOr ((meta.s.getD ⟨none, none, none⟩).u.getD "")
                    ((meta.s.getD ⟨none, none, none⟩).gif.getD "") = ""
                · simp [hu, hmid, hst]
                · simp [hu, hmid, hst]
              · simp [hst, hmid]
  · decide

/-- C10: confirmed. In the subreddit listing scan, a non-gallery video or
image post whose exact origin URL already has an index record stops the
scan entirely (nothing after it in the listing is considered and no entry
is produced), whereas an already-recorded permalink or a gallery post only
skips/handles that single post and the scan continues with the rest. -/
theorem c10_dup_stops_scan (db : Db) (p : RPost) (rest : List RPost)
    (h1 : p.is_self = false) :
    (∀ vu, is_post_downloaded db p.permalink = false → extract_gallery_urls p = [] →
      extract_video_url p = some vu → (get_image_record db vu).isSome = true →
      process_posts db (p :: rest) =
        ([], [PEvent.resolved p.permalink, PEvent.stoppedOnDup vu])) ∧
    (is_post_downloaded db p.permalink = false → extract_gallery_urls p = [] →
      extract_video_url p = none → is_image_url p.url = true →
      (get_image_record db p.url).isSome = true →
      process_posts db (p :: rest) =
        ([], [PEvent.resolved p.permalink, PEvent.stoppedOnDup p.url])) ∧
    (is_post_downloaded db p.permalink = true →
      (process_posts db (p :: rest)).1 = (process_posts db rest).1) ∧
    (∀ u us, is_post_downloaded db p.permalink = false →
      extract_gallery_urls p = u :: us →
      (process_posts db (p :: rest)).1 =
        galleryEntry p (u :: us) :: (process_posts db rest).1) := by
  refine ⟨?_, ?_, ?_, ?_⟩
  · intro vu h2 h3 h4 h5
    simp [process_posts, processPost, h1, h2, h3, h4, h5]
  · intro h2 h3 h4 h5 h6
    simp [process_posts, processPost, h1, h2, h3, h4, h5, h6]
  · intro h2
    simp [process_posts, processPost, h1, h2]
  · intro u us h2 h3
    simp [process_posts, processPost, h1, h2, h3]

/-- C10 witness: a listing whose first post is an image post with an
already-recorded URL stops before the second post is considered. -/
theorem c10_dup_stops_scan_witness :
    process_posts dbC10 [pC10dup, pC10next] =
      ([], [PEvent.resolved "/r/x/comments/d1/",
            PEvent.stoppedOnDup "https://i.redd.it/dup.jpg"]) :=
  (c10_dup_stops_scan dbC10 pC10dup [pC10next] rfl).2.1 (by decide) (by decide)
    (by decide) (by decide) (by decide)

theorem downloadList_trace_length (env : Env) (sub : String) (pd : PostData) :
    ∀ (gl : List String) (db : Db),
      (downloadList env sub pd db gl).2.2.length = gl.length := by
  intro gl
  induction gl with
  | nil => intro db; rfl
  | cons g rest ih =>
    intro db
    simp [downloadList, ih]

theorem dfu_trace_length (env : Env) (sub : String) (ud : Option (List PostData)) :
    ∀ (urls : List String) (db : Db) (i : Nat),
      (download_from_urls_go env sub ud db i urls).2.2.length =
        plannedAttemptsGo ud i urls := by
  intro urls
  induction urls with
  | nil => intro db i; rfl
  | cons url rest ih =>
    intro db i
    have hone : ∀ db1 : Db, (downloadOne env sub db1 url (pdFor ud i)).2.2.length =
        (match pdFor ud i with
          | some p =>
            match p.all_urls with
            | some sAll =>
              if sAll ≠ "" then
                (((splitCharS sAll ',').map trimS).filter (fun u => u ≠ "")).length
              else 1
            | none => 1
          | none => 1) := by
      intro db1
      cases hpd : pdFor ud i with
      | none => rfl
      | some p =>
        cases hau : p.all_urls with
        | none => simp [downloadOne, hau]
        | some sAll =>
          by_cases hs : sAll = ""
          · simp [downloadOne, hau, hs]
          · simp [downloadOne, hau, hs, downloadList_trace_length]
    simp only [download_from_urls_go, plannedAttemptsGo, List.length_append, ih, hone]

/-- C9: confirmed. `download_image` returns a boolean and never lets an
expected failure escape: any exception in its body (network/HTTP error on
fetch, or a failed rename — conversion failure is already caught inside the
body) is caught and reported as `false` with the state as mutated so far;
and the enclosing batch always attempts every planned download (one per
single-URL item, one per gallery URL), regardless of earlier failures. -/
theorem c9_download_never_raises :
    (∀ (env : Env) (db : Db) (url : String) (fn : Option String) (sub : String)
        (pd : Option PostData) (dbE : Db),
      download_image_body env db url fn sub pd = Except.error dbE →
      download_image env db url fn sub pd = (false, dbE)) ∧
    (∀ (env : Env) (db : Db) (urls : List String) (sub : String)
        (ud : Option (List PostData)),
      (download_from_urls env db urls sub ud).2.2.length = plannedAttempts ud urls) := by
  constructor
  · intro env db url fn sub pd dbE h
    simp [download_image, h]
  · intro env db urls sub ud
    exact dfu_trace_length env sub ud urls db 0

/-- C9 witness: a failing fetch yields `(false, unchanged state)` through
the catch-all, not an exception. -/
theorem c9_download_never_raises_witness :
    download_image envFail db0 "https://u.example/x.jpg" none "" none = (false, db0) :=
  c9_download_never_raises.1 envFail db0 "https://u.example/x.jpg" none "" none db0 rfl

/-- C3: code bug. Re-fetching an origin URL whose prior record is
soft-deleted and whose filename contains the `_deleted` marker does strip
the marker, rename the file back and update the stored path — but the
`is_deleted` flag is NEVER cleared (`_update_file_path_in_db` touches only
`file_path`, and nothing in the repository sets `is_deleted` back to 0),
contradicting the claim's (and spec §4.3/§4.5's) "clear the soft-deleted
flag" and the code's own "Restored" log message. -/
theorem c3_restore_keeps_deleted_flag :
    (download_image envC3 dbC3 "https://u.example/p.jpg" none "" none).1 = true ∧
    (download_image envC3 dbC3 "https://u.example/p.jpg" none "" none).2.images.find?
        (fun i => i.id = 1) =
      some ⟨1, 999, "pic_deleted.jpg", "dl/pic.jpg", 3, true⟩ ∧
    diskGet (download_image envC3 dbC3 "https://u.example/p.jpg" none "" none).2
        "dl/pic.jpg" = some [2] ∧
    diskGet (download_image envC3 dbC3 "https://u.example/p.jpg" none "" none).2
        "dl/pic_deleted.jpg" = none := by
  decide

/-- C2 counterexample: a completed .gif download (conversion succeeds)
whose fingerprint (md5 of the gif bytes, here 265) matches the existing
Artifact row 1, whose recorded file (resolved to "dl/old.gif") is still on
disk — yet the just-written (converted) file "dl/a.mp4" is kept, and the
row's path is redirected to it instead of being reused: the GIF branch of
`download_image` performs no duplicate check at all. -/
theorem c2_counterexample_gif :
    (download_image envC2g dbC2g "https://u.example/a.gif" (some "a.gif") "" none).1
      = true ∧
    diskGet (download_image envC2g dbC2g "https://u.example/a.gif" (some "a.gif") ""
        none).2 "dl/a.mp4" = some [5] ∧
    (download_image envC2g dbC2g "https://u.example/a.gif" (some "a.gif") "" none).2.images
      = [⟨1, 265, "old.gif", "dl/a.mp4", 1, false⟩] ∧
    diskGet (download_image envC2g dbC2g "https://u.example/a.gif" (some "a.gif") ""
        none).2 "dl/old.gif" = some [9] := by
  decide

theorem diskHas_false_find? (db : Db) (p : String) (h : diskHas db p = false) :
    db.disk.find? (fun e => e.1 = p) = none := by
  unfold diskHas diskGet at h
  cases hf : db.disk.find? (fun e => e.1 = p) with
  | none => rfl
  | some e => rw [hf] at h; simp at h

theorem find?_none_filter_ne (p : String) :
    ∀ l : List (String × List Nat), l.find? (fun e => e.1 = p) = none →
      l.filter (fun e => ¬ e.1 = p) = l := by
  intro l
  induction l with
  | nil => intro _; rfl
  | cons a t ih =>
    intro h
    by_cases hpa : a.1 = p
    · simp [List.find?, hpa] at h
    · have h2 : t.find? (fun e => e.1 = p) = none := by
        simpa [List.find?, hpa] using h
      rw [List.filter_cons, ih h2]
      simp [hpa]

theorem diskWrite_not_has (db : Db) (p : String) (b : List Nat)
    (h : diskHas db p = false) :
    diskWrite db p b = { db with disk := (p, b) :: db.disk } := by
  unfold diskWrite
  rw [find?_none_filter_ne p db.disk (diskHas_false_find? db p h)]

theorem diskRemove_cons_self (db : Db) (p : String) (b : List Nat)
    (h : diskHas db p = false) :
    diskRemove { db with disk := (p, b) :: db.disk } p = db := by
  unfold diskRemove
  rw [show ((p, b) :: db.disk).filter (fun e => ¬ e.1 = p)
      = db.disk.filter (fun e => ¬ e.1 = p) from by simp [List.filter_cons]]
  rw [find?_none_filter_ne p db.disk (diskHas_false_find? db p h)]

theorem diskHas_cons_ne (db : Db) (q p : String) (b : List Nat) (h : ¬ q = p) :
    diskHas { db with disk := (q, b) :: db.disk } p = diskHas db p := by
  simp [diskHas, diskGet, List.find?, h]

theorem diskHas_cons_self (db : Db) (p : String) (b : List Nat) :
    diskHas { db with disk := (p, b) :: db.disk } p = true := by
  simp [diskHas, diskGet, List.find?]

/-- C2 amended: for a completed NON-GIF download whose fingerprint matches
an existing Artifact row: (a) if the row's recorded file (resolved against
the download folder) still exists on disk, the just-written file is
discarded (the disk is left as it was), the existing row's path, filename
and size are reused and no second row is created — only that row's path is
rewritten to its resolved form; (b) if the recorded file is missing, the
newly written file is kept on disk and that same row's stored path is
updated to the new location, again without creating a second row. GIF
downloads bypass this duplicate check entirely (see the counterexample). -/
theorem c2_dedup_and_repair (env : Env) (db : Db) (url fname sub : String)
    (resp : Fetched) (existing : Image)
    (henv : env.fetch url = some resp)
    (hprev : get_image_record db url = none)
    (hng : endsWithS (lowerS (targetFolder env sub ++ "/" ++ fname)) ".gif" = false)
    (hhash : get_image_by_hash db (env.md5 resp.bytes) = some existing)
    (hne : ¬ resolve_existing_path env existing = targetFolder env sub ++ "/" ++ fname)
    (hnew : diskHas db (targetFolder env sub ++ "/" ++ fname) = false) :
    (diskHas db (resolve_existing_path env existing) = true →
      download_image env db url (some fname) sub none =
        (true, { db with images := db.images.map (fun j =>
            if j.id = existing.id then
              { j with file_path := resolve_existing_path env existing }
            else j) })) ∧
    (diskHas db (resolve_existing_path env existing) = false →
      download_image env db url (some fname) sub none =
        (true, { db with
            images := db.images.map (fun j =>
              if j.id = existing.id then
                { j with file_path := targetFolder env sub ++ "/" ++ fname }
              else j)
            disk := (targetFolder env sub ++ "/" ++ fname, resp.bytes) :: db.disk })) := by
  have hwrite := diskWrite_not_has db (targetFolder env sub ++ "/" ++ fname) resp.bytes hnew
  have hfind : db.images.find? (fun i => i.file_hash = env.md5 resp.bytes) = some existing :=
    hhash
  constructor
  · intro hdisk
    have hhas2 : diskHas
        { db with disk := (targetFolder env sub ++ "/" ++ fname, resp.bytes) :: db.disk }
        (resolve_existing_path env existing) = true := by
      rw [diskHas_cons_ne db _ _ _ (fun hq => hne hq.symm)]
      exact hdisk
    have hrem2 := diskRemove_cons_self db (targetFolder env sub ++ "/" ++ fname)
      resp.bytes hnew
    simp [download_image, download_image_body, henv, hprev, hng, hwrite,
      get_image_by_hash, hfind, hhas2, hrem2, save_image_metadata, finishRestore]
  · intro hdisk
    have hhas2 : diskHas
        { db with disk := (targetFolder env sub ++ "/" ++ fname, resp.bytes) :: db.disk }
        (resolve_existing_path env existing) = false := by
      rw [diskHas_cons_ne db _ _ _ (fun hq => hne hq.symm)]
      exact hdisk
    have hself := diskHas_cons_self db (targetFolder env sub ++ "/" ++ fname) resp.bytes
    simp [download_image, download_image_body, henv, hprev, hng, hwrite,
      get_image_by_hash, hfind, hhas2, hself, save_image_metadata, finishRestore]

/-- C2 witness: both branches of the amended claim at concrete states — a
duplicate with the recorded file present (dbC2a) and a repair with the
recorded file missing (dbC2b). -/
theorem c2_dedup_and_repair_witness :
    download_image envC2 dbC2a "https://u.example/x.jpg" (some "x.jpg") "" none =
      (true, { dbC2a with images := dbC2a.images.map (fun j =>
          if j.id = imgC2.id then
            { j with file_path := resolve_existing_path envC2 imgC2 }
          else j) }) ∧
    download_image envC2 dbC2b "https://u.example/x.jpg" (some "x.jpg") "" none =
      (true, { dbC2b with
          images := dbC2b.images.map (fun j =>
            if j.id = imgC2.id then { j with file_path := "dl/x.jpg" } else j)
          disk := [("dl/x.jpg", [7])] }) :=
  ⟨(c2_dedup_and_repair envC2 dbC2a "https://u.example/x.jpg" "x.jpg" "" ⟨[7], none⟩
      imgC2 rfl rfl (by decide) (by decide) (by decide) (by decide)).1 (by decide),
    (c2_dedup_and_repair envC2 dbC2b "https://u.example/x.jpg" "x.jpg" "" ⟨[7], none⟩
      imgC2 rfl rfl (by decide) (by decide) (by decide) (by decide)).2 (by decide)⟩

end RedditDL
